import Mathlib

/-!
# Verification of the vector-admin connector core

A shallow embedding of the connector abstraction and document-ingestion
pipeline of the vector-admin repository:

* `src/backend/utils/vectordatabases/providers/milvus/index.js` (the Milvus
  connector: `distanceToScore`, `processDocument`, `similarityResponse`,
  `namespaceExists`, `heartbeat`),
* the ClickHouse connector (`processDocument` stub, `similarityResponse`,
  `namespaceExists`, `namespaces`, `heartbeat`),
* `src/backend/utils/vectordatabases/providers/index.js` (`selectConnector`),
* `src/backend/utils/vectordatabases/validateNewDatabaseConnector.js`.

Modelling conventions:

* JS strings of document text are `List Char`; short identifiers and
  messages stay `String`.
* JS numbers are `ℚ` (the functions verified here only compare and copy
  them; no rounding behaviour is involved).
* External calls (the embedding provider, the backend client, uuid
  generation, JSON parsing) are parameters gathered in explicit
  environment structures, so one environment value denotes one concrete
  execution.
* Side effects are reified as explicit event traces: a function of the
  source that performs effects is embedded as a pure function returning
  `result × List Effect`, the events listed in program order.  An event is
  recorded when the corresponding call is issued; a call whose environment
  flag is `false` models that call throwing, after which control transfers
  to the enclosing `catch` exactly as in the source.
-/

/-- One text chunk / one document text, a JS string. -/
abbrev Chars := List Char

/-! ## Text splitting

`processDocument` uses langchain's `RecursiveCharacterTextSplitter` with
`chunkSize 1000, chunkOverlap 20`.  The splitter library is an external
dependency whose source is not part of this repository.

Modelled from the spec: "Split `pageContent` into overlapping text chunks
using a fixed target chunk size (1000 units) and overlap (20 units).
Empty/degenerate input yields zero or one chunk; never throws on empty
text."  The model is a sliding window of width `chunkSize` advancing by
`chunkSize - overlap`, which on separator-free text is exactly what the
library's merge loop produces (it emits a full chunk, keeps the trailing
`overlap` characters, and refills). -/
def windowChunksAux (size stride : Nat) : Nat → Chars → List Chars
  | 0, _ => []
  | fuel + 1, cs =>
      if cs.length ≤ size then [cs]
      else cs.take size :: windowChunksAux size stride fuel (cs.drop stride)

/-- Split a text into overlapping chunks of at most `size` characters where
adjacent chunks share `size - stride` characters; empty text yields no
chunks. -/
def splitText (size overlap : Nat) (text : Chars) : List Chars :=
  if text.isEmpty then []
  else windowChunksAux size (size - overlap) text.length text

/-! ## Score normalization (`Milvus.distanceToScore`)

```js
distanceToScore(distance = null) {
  if (distance === null || typeof distance !== "number") return 0.0;
  if (distance >= 1.0) return 1;
  if (distance <= 0) return 0;
  return distance;
}
```
A missing / non-numeric argument is `none`. -/
def distanceToScore : Option ℚ → ℚ
  | none => 0
  | some distance =>
      if distance ≥ 1 then 1
      else if distance ≤ 0 then 0
      else distance

/-! ## Ingestion pipeline data model (`Milvus.processDocument`) -/

/-- The `documentData` argument: the page text, the source doc id, and the
remaining metadata keys (the JS rest-spread `{ pageContent, id, ...metadata }`
already performed, so `metadata` excludes `pageContent` and `id`). -/
structure DocumentData where
  pageContent : Chars
  id : String
  metadata : List (String × String)
deriving DecidableEq

/-- The `dbDocument` argument (a WorkspaceDocument row). -/
structure DbDocument where
  id : Nat
  workspace_id : Nat
  organization_id : Nat
deriving DecidableEq

/-- One synthesized vector record (`vectorRecord` in the source):
`{ id: v4(), values: vector, metadata: { ...metadata, text: textChunks[i] } }`. -/
structure VectorRecord where
  id : String
  values : List ℚ
  metadataPairs : List (String × String)
  text : Chars
deriving DecidableEq

/-- One row of the `documentVectors` list handed to
`DocumentVectors.createMany`. -/
structure DocRow where
  docId : String
  vectorId : String
  documentId : Nat
  workspaceId : Nat
  organizationId : Nat
deriving DecidableEq

/-- One entry of the `cacheInfo` list handed to `storeVectorResult`. -/
structure CacheEntry where
  vectorDbId : String
  values : List ℚ
  metadataPairs : List (String × String)
  text : Chars
deriving DecidableEq

/-- One row of a Milvus insert payload:
`{ id: v.id, vector: v.values, text: v.metadata.text || "", metadata: ... }`. -/
structure InsertRow where
  id : String
  vector : List ℚ
  text : Chars
deriving DecidableEq

/-- The reified side effects of one `processDocument` run, in program
order. -/
inductive Effect where
  /-- `openai.embedTextChunks(textChunks)` was called. -/
  | embedRequest (chunks : List Chars)
  /-- `this.connect()` was called (a backend connection was opened). -/
  | connect
  /-- `client.loadCollection` was called. -/
  | loadCollection (name : String)
  /-- `client.insert` was issued for one batch. -/
  | insertBatch (collection : String) (rows : List InsertRow)
  /-- `DocumentVectors.createMany(documentVectors)` was called. -/
  | createManyRows (rows : List DocRow)
  /-- `storeVectorResult(cacheInfo, filename)` was called. -/
  | storeCache (entries : List CacheEntry) (filename : String)
deriving DecidableEq

/-- One concrete execution environment for `processDocument`: the answers of
the embedding provider, the uuid stream of `v4()`, and whether each external
call succeeds (`false` models that call throwing). -/
structure MilvusEnv where
  embed : List Chars → Option (List (List ℚ))
  uuid : Nat → String
  connectOk : Bool
  loadOk : Bool
  /-- whether the i-th insert batch succeeds (missing entries succeed). -/
  insertOk : List Bool
  createManyOk : Bool
  storeOk : Bool

/-- The `{success, message}` result. -/
structure ProcessResult where
  success : Bool
  message : Option String
deriving DecidableEq

/-- Modelled from the spec: `toChunks` (from
`src/backend/utils/vectordatabases/utils`, not in the excerpt) splits a list
into consecutive fixed-size batches — "Insert VectorRecords into the backend
in fixed-size batches (500 per batch)". -/
def toChunksAux (n : Nat) : Nat → List α → List (List α)
  | 0, _ => []
  | _ + 1, [] => []
  | fuel + 1, l => l.take n :: toChunksAux n fuel (l.drop n)

/-- Split `l` into consecutive batches of at most `n` elements. -/
def toChunks (l : List α) (n : Nat) : List (List α) :=
  toChunksAux n l.length l

/-- The loop body of the `vectorValues.entries()` loop: from the `i`-th
embedding on, build the `vectors`, `documentVectors` and `cacheInfo` lists. -/
def buildRecords (uuid : Nat → String) (chunks : List Chars)
    (docData : DocumentData) (dbDoc : DbDocument) :
    Nat → List (List ℚ) → List VectorRecord × List DocRow × List CacheEntry
  | _, [] => ([], [], [])
  | i, v :: rest =>
      let vid := uuid i
      let tl := buildRecords uuid chunks docData dbDoc (i + 1) rest
      (⟨vid, v, docData.metadata, chunks.getD i []⟩ :: tl.1,
       ⟨docData.id, vid, dbDoc.id, dbDoc.workspace_id, dbDoc.organization_id⟩ :: tl.2.1,
       ⟨vid, v, docData.metadata, chunks.getD i []⟩ :: tl.2.2)

/-- `chunk.map((v) => ({ id: v.id, vector: v.values, text: v.metadata.text || "", ... }))`. -/
def toInsertRow (v : VectorRecord) : InsertRow :=
  ⟨v.id, v.values, v.text⟩

/-- Issue the insert batches in order, recording one `insertBatch` event per
issued call and stopping at the first failing one; returns the events and
whether every batch succeeded. -/
def runInserts (collection : String) (ok : List Bool) :
    Nat → List (List InsertRow) → List Effect × Bool
  | _, [] => ([], true)
  | i, b :: bs =>
      if ok.getD i true then
        let rest := runInserts collection ok (i + 1) bs
        (Effect.insertBatch collection b :: rest.1, rest.2)
      else ([Effect.insertBatch collection b], false)

/-- Modelled from the spec: `WorkspaceDocument.vectorFilename` (model file not
in the excerpt) — "a deterministic filename derived from the document". -/
def vectorFilename (d : DbDocument) : String :=
  toString d.id

/-- The insert rows issued to the backend by a list of events, in order. -/
def insertedRows : List Effect → List InsertRow
  | [] => []
  | Effect.insertBatch _ b :: rest => b ++ insertedRows rest
  | .embedRequest _ :: rest => insertedRows rest
  | .connect :: rest => insertedRows rest
  | .loadCollection _ :: rest => insertedRows rest
  | .createManyRows _ :: rest => insertedRows rest
  | .storeCache _ _ :: rest => insertedRows rest

/-- Shallow embedding of `Milvus.processDocument`.  Control flow follows the
source: split, embed (abort `{success:false}` on a null/empty provider
answer), build the three record lists, connect, load the collection, insert
in batches of 500, then `DocumentVectors.createMany` and `storeVectorResult`;
any failing call transfers to the `catch`, which returns `{success:false}`
with the events issued so far. -/
def processDocument (env : MilvusEnv) (collectionName : String)
    (documentData : DocumentData) (dbDocument : DbDocument) :
    ProcessResult × List Effect :=
  let textChunks := splitText 1000 20 documentData.pageContent
  match env.embed textChunks with
  | none => (⟨false, some "Failed to generate embeddings"⟩, [.embedRequest textChunks])
  | some vectorValues =>
      if vectorValues.isEmpty then
        (⟨false, some "Failed to generate embeddings"⟩, [.embedRequest textChunks])
      else
        let recs := buildRecords env.uuid textChunks documentData dbDocument 0 vectorValues
        let vectors := recs.1
        let documentVectors := recs.2.1
        let cacheInfo := recs.2.2
        let tr1 : List Effect := [.embedRequest textChunks, .connect]
        if ¬ env.connectOk then (⟨false, some "connect failed"⟩, tr1)
        else
          let tr2 := tr1 ++ [.loadCollection collectionName]
          if ¬ env.loadOk then (⟨false, some "loadCollection failed"⟩, tr2)
          else
            let ins := runInserts collectionName env.insertOk 0
              ((toChunks vectors 500).map (fun c => c.map toInsertRow))
            let tr3 := tr2 ++ ins.1
            if ¬ ins.2 then (⟨false, some "insert failed"⟩, tr3)
            else
              let tr4 := tr3 ++ [.createManyRows documentVectors]
              if ¬ env.createManyOk then (⟨false, some "createMany failed"⟩, tr4)
              else
                let tr5 := tr4 ++ [.storeCache cacheInfo (vectorFilename dbDocument)]
                if ¬ env.storeOk then (⟨false, some "storeVectorResult failed"⟩, tr5)
                else (⟨true, none⟩, tr5)

/-! ## Similarity query (`Milvus.similarityResponse`, ClickHouse stub) -/

/-- One search hit as returned by `client.search` (`hit.id`, `hit.text`,
`hit.score`, `hit.metadata` — any of the last three may be absent). -/
structure Hit where
  id : String
  text : Option Chars
  score : Option ℚ
  metadata : Option String
deriving DecidableEq

/-- The `sourceDocuments` entry built from one hit: `{}` when `hit.metadata`
is falsy, the parsed metadata when `JSON.parse` succeeds, and the
`{text: hit.text}` fallback when parsing throws. -/
inductive SourceDoc where
  | emptyDoc
  | parsed (raw : String)
  | fallback (text : Option Chars)
deriving DecidableEq

/-- The four parallel result arrays of `similarityResponse`. -/
structure SimilarityResponse where
  vectorIds : List String
  contextTexts : List Chars
  sourceDocuments : List SourceDoc
  scores : List ℚ
deriving DecidableEq

/-- One execution environment for `similarityResponse`: whether each backend
call succeeds, the raw hits the backend search returns (the client truncates
to the requested `limit`), and which metadata strings `JSON.parse` accepts. -/
structure SimEnv where
  connectOk : Bool
  loadOk : Bool
  searchOk : Bool
  hits : List Hit
  parses : String → Bool

/-- `metadata = hit.metadata ? JSON.parse(hit.metadata) : {}`, with the
`catch` fallback `{text: hit.text}`. -/
def hitSourceDoc (parses : String → Bool) (h : Hit) : SourceDoc :=
  match h.metadata with
  | none => .emptyDoc
  | some m => if m = "" then .emptyDoc else if parses m then .parsed m else .fallback h.text

/-- Shallow embedding of `Milvus.similarityResponse`: connect, load the
collection, search with `limit: topK`, then push one entry per hit onto the
four arrays; any exception yields the all-empty structure. -/
def similarityResponse (env : SimEnv) (ns : String) (queryVector : List ℚ)
    (topK : Nat) : SimilarityResponse :=
  if env.connectOk && env.loadOk && env.searchOk then
    let results := env.hits.take topK
    { vectorIds := results.map Hit.id
      contextTexts := results.map (fun h => h.text.getD [])
      sourceDocuments := results.map (hitSourceDoc env.parses)
      scores := results.map (fun h => distanceToScore h.score) }
  else ⟨[], [], [], []⟩

/-- Shallow embedding of `ClickHouse.similarityResponse`: always the
all-empty structure. -/
def clickhouseSimilarityResponse (ns : String) (queryVector : List ℚ)
    (topK : Nat) : SimilarityResponse :=
  ⟨[], [], [], []⟩

/-! ## Connector factory (`selectConnector`) -/

/-- A persisted connector record passed to the factory
(`{type, settings}`). -/
structure OrgConnector where
  type : String
  settings : String
deriving DecidableEq

/-- The six connector classes the factory can instantiate. -/
inductive Connector where
  | chroma (c : OrgConnector)
  | pinecone (c : OrgConnector)
  | qdrant (c : OrgConnector)
  | weaviate (c : OrgConnector)
  | milvus (c : OrgConnector)
  | clickhouse (c : OrgConnector)
deriving DecidableEq

/-- Modelled from the spec: `OrganizationConnection.supportedConnectors`
(model file not in the excerpt) — the fixed supported set of six connector
type tags. -/
def supportedConnectors : List String :=
  ["chroma", "pinecone", "qdrant", "weaviate", "milvus", "clickhouse"]

/-- Shallow embedding of `selectConnector`
(`src/backend/utils/vectordatabases/providers/index.js`): a thrown error is
an `Except.error`. -/
def selectConnector (oc : OrgConnector) : Except String Connector :=
  if ¬ (oc.type ∈ supportedConnectors) then
    Except.error "Unsupported connector for vector database."
  else if oc.type = "chroma" then Except.ok (Connector.chroma oc)
  else if oc.type = "pinecone" then Except.ok (Connector.pinecone oc)
  else if oc.type = "qdrant" then Except.ok (Connector.qdrant oc)
  else if oc.type = "weaviate" then Except.ok (Connector.weaviate oc)
  else if oc.type = "milvus" then Except.ok (Connector.milvus oc)
  else if oc.type = "clickhouse" then Except.ok (Connector.clickhouse oc)
  else Except.error "Could not find supported connector for vector database."

/-! ## Connector validation (`validateNewDatabaseConnector`) -/

/-- One execution environment for validation: the outcome `(valid, message)`
of each backend-specific network probe (`validateChroma` … ,
`validateClickHouse`). -/
structure ValidatorEnv where
  outcome : String → Bool × Option String

/-- The reified persistence side effect of connector registration. -/
inductive OrgEffect where
  /-- `OrganizationConnection.create(organization.id, type, settings)` was
  called. -/
  | createConnection (organizationId : Nat) (ctype : String) (settings : String)
deriving DecidableEq

/-- The `{connector, error}` result of `validateNewDatabaseConnector`. -/
structure ValidateResult where
  connector : Option OrgConnector
  error : Option String
deriving DecidableEq

/-- Shallow embedding of `validateNewDatabaseConnector`: reject unsupported
types, run the backend-specific probe, and only when it reports valid call
`OrganizationConnection.create`. -/
def validateNewDatabaseConnector (env : ValidatorEnv) (organizationId : Nat)
    (ctype settings : String) : ValidateResult × List OrgEffect :=
  if ¬ (ctype ∈ supportedConnectors) then
    (⟨none, some "Unsupported vector database type."⟩, [])
  else
    let statusCheck := env.outcome ctype
    if statusCheck.1 = false then (⟨none, statusCheck.2⟩, [])
    else (⟨some ⟨ctype, settings⟩, none⟩,
      [OrgEffect.createConnection organizationId ctype settings])

/-- Two adjacent chunks share a 20-character overlap: the last 20 characters
of the first are the first 20 of the second. -/
def chunkOverlap20 (c₁ c₂ : Chars) : Prop :=
  c₁.drop (c₁.length - 20) = c₂.take 20 ∧ (c₂.take 20).length = 20

/-! ## `namespaceExists` (Milvus and ClickHouse) -/

/-- Backend state for one `namespaceExists` call: whether `connect()`
succeeds, whether the lookup call succeeds, and the backend's answer. -/
structure NsEnv where
  connectOk : Bool
  queryOk : Bool
  backendHas : Bool
deriving DecidableEq

/-- Shallow embedding of `Milvus.namespaceExists`: the missing-name guard
throws outside the `try` (an `Except.error`); inside the `try`, any failure
is caught and `false` is returned. -/
def milvusNamespaceExists (env : NsEnv) (name : Option String) : Except String Bool :=
  if name.getD "" = "" then Except.error "No namespace value provided."
  else if env.connectOk = false then Except.ok false
  else if env.queryOk = false then Except.ok false
  else Except.ok env.backendHas

/-- Shallow embedding of `ClickHouse.namespaceExists` (same structure, its
own guard message, the answer is `data.length > 0`). -/
def clickhouseNamespaceExists (env : NsEnv) (name : Option String) : Except String Bool :=
  if name.getD "" = "" then Except.error "No namespace (table) value provided."
  else if env.connectOk = false then Except.ok false
  else if env.queryOk = false then Except.ok false
  else Except.ok env.backendHas

/-! ## Connection acquisition / release events (C9) -/

/-- Client lifecycle events of one connector operation. -/
inductive ConnEvent where
  /-- `createClient` / `new MilvusClient` acquired a client. -/
  | openClient
  /-- `client.close()` released it. -/
  | closeClient
deriving DecidableEq

/-- Shallow embedding of `ClickHouse.namespaces` restricted to client
lifecycle: `connect()` creates the client then pings (a failing ping throws
with the client open); the `system.tables` query may throw; `client.close()`
is reached only on the fully successful path — the `catch` returns `[]`
without closing. -/
def clickhouseNamespaces (pingOk queryOk : Bool) (tables : List (String × Nat)) :
    List (String × Nat) × List ConnEvent :=
  if pingOk = false then ([], [ConnEvent.openClient])
  else if queryOk = false then ([], [ConnEvent.openClient])
  else (tables, [ConnEvent.openClient, ConnEvent.closeClient])

/-- Shallow embedding of `Milvus.heartbeat` restricted to client lifecycle:
`connect()` creates a `MilvusClient` and checks health; no path of the Milvus
connector ever calls a close/release on the client. -/
def milvusHeartbeat (healthOk : Bool) : (Bool × Option String) × List ConnEvent :=
  if healthOk then ((true, none), [ConnEvent.openClient])
  else ((false, some "Milvus::Connection failed - cluster is not healthy"),
    [ConnEvent.openClient])

/-! ## `ClickHouse.processDocument` stub (C10) -/

/-- Shallow embedding of `ClickHouse.processDocument`: the source returns the
fixed failure object immediately and performs no call at all. -/
def clickhouseProcessDocument (tableName : String) (documentData : DocumentData)
    (embedderApiKey : String) (dbDocument : DbDocument) :
    ProcessResult × List Effect :=
  (⟨false,
    some "ClickHouse is not a vector database - document processing not supported"⟩, [])

/-! ### Structural lemmas about the pipeline pieces -/

/-- C1: the score normalizer clamps to `[0,1]`: any value `≥ 1` maps to `1`,
any value `≤ 0` maps to `0`, values strictly between pass through unchanged;
in particular `1.5 ↦ 1`, `-0.2 ↦ 0`, `0.42 ↦ 0.42`. -/
theorem distanceToScore_clamps (x : ℚ) :
    (x ≥ 1 → distanceToScore (some x) = 1) ∧
    (x ≤ 0 → distanceToScore (some x) = 0) ∧
    (0 < x → x < 1 → distanceToScore (some x) = x) ∧
    distanceToScore (some (3/2)) = 1 ∧
    distanceToScore (some (-(2/10))) = 0 ∧
    distanceToScore (some (42/100)) = 42/100 := by
  refine ⟨fun h => ?_, fun h => ?_, fun h0 h1 => ?_, by norm_num [distanceToScore],
    by norm_num [distanceToScore], by norm_num [distanceToScore]⟩
  · simp [distanceToScore, h]
  · have : ¬ x ≥ 1 := by linarith
    simp [distanceToScore, this, h]
  · have hge : ¬ x ≥ 1 := by linarith
    have hle : ¬ x ≤ 0 := by linarith
    simp [distanceToScore, hge, hle]

/-- Witness for `distanceToScore_clamps`: its hypotheses are satisfiable at
concrete scores. -/
theorem distanceToScore_clamps_witness :
    distanceToScore (some (3/2)) = 1 ∧ distanceToScore (some (-(2/10))) = 0 ∧
      distanceToScore (some (42/100)) = 42/100 :=
  ⟨(distanceToScore_clamps (3/2)).1 (by norm_num),
   (distanceToScore_clamps (-(2/10))).2.1 (by norm_num),
   (distanceToScore_clamps (42/100)).2.2.1 (by norm_num) (by norm_num)⟩


theorem insertedRows_append (l₁ l₂ : List Effect) :
    insertedRows (l₁ ++ l₂) = insertedRows l₁ ++ insertedRows l₂ := by
  induction l₁ with
  | nil => simp [insertedRows]
  | cons e rest ih => cases e <;> simp [insertedRows, ih]

theorem insertedRows_map_insertBatch (c : String) (bs : List (List InsertRow)) :
    insertedRows (bs.map (Effect.insertBatch c)) = bs.flatten := by
  induction bs with
  | nil => simp [insertedRows]
  | cons b rest ih => simp [insertedRows, ih]

theorem runInserts_events (c : String) (ok : List Bool) :
    ∀ i bs e, e ∈ (runInserts c ok i bs).1 → ∃ b, e = Effect.insertBatch c b := by
  intro i bs
  induction bs generalizing i with
  | nil => intro e he; simp [runInserts] at he
  | cons b rest ih =>
      intro e he
      rw [runInserts] at he
      by_cases h : ok.getD i true
      · rw [if_pos h] at he
        rcases List.mem_cons.mp he with he | he
        · exact ⟨b, he⟩
        · exact ih (i + 1) e he
      · rw [if_neg h] at he
        exact ⟨b, List.mem_singleton.mp he⟩

theorem runInserts_complete (c : String) (ok : List Bool) :
    ∀ i bs, (runInserts c ok i bs).2 = true →
      (runInserts c ok i bs).1 = bs.map (Effect.insertBatch c) := by
  intro i bs
  induction bs generalizing i with
  | nil => intro _; simp [runInserts]
  | cons b rest ih =>
      intro h
      rw [runInserts] at h ⊢
      by_cases hok : ok.getD i true
      · rw [if_pos hok] at h ⊢
        simp only [List.map_cons, List.cons.injEq, true_and]
        exact ih (i + 1) h
      · rw [if_neg hok] at h
        simp at h

theorem toChunksAux_flatten (n : Nat) (hn : 0 < n) :
    ∀ fuel l, l.length ≤ fuel → (toChunksAux n fuel (l : List α)).flatten = l := by
  intro fuel
  induction fuel with
  | zero =>
      intro l hl
      have : l = [] := List.eq_nil_of_length_eq_zero (Nat.le_zero.mp hl)
      simp [this, toChunksAux]
  | succ f ih =>
      intro l hl
      cases l with
      | nil => simp [toChunksAux]
      | cons a rest =>
          have hdrop : ((a :: rest).drop n).length ≤ f := by
            simp only [List.length_drop, List.length_cons]
            simp only [List.length_cons] at hl
            omega
          simp only [toChunksAux, List.flatten_cons]
          rw [ih _ hdrop]
          exact List.take_append_drop n (a :: rest)

theorem toChunks_flatten (l : List α) (n : Nat) (hn : 0 < n) :
    (toChunks l n).flatten = l :=
  toChunksAux_flatten n hn l.length l le_rfl

theorem buildRecords_ids (uuid : Nat → String) (chunks : List Chars)
    (dd : DocumentData) (db : DbDocument) :
    ∀ i vs, ((buildRecords uuid chunks dd db i vs).2.1).map DocRow.vectorId
        = ((buildRecords uuid chunks dd db i vs).1).map VectorRecord.id := by
  intro i vs
  induction vs generalizing i with
  | nil => simp [buildRecords]
  | cons v rest ih => simp [buildRecords, ih]

theorem buildRecords_lengths (uuid : Nat → String) (chunks : List Chars)
    (dd : DocumentData) (db : DbDocument) :
    ∀ i vs, ((buildRecords uuid chunks dd db i vs).1).length = vs.length
      ∧ ((buildRecords uuid chunks dd db i vs).2.1).length = vs.length
      ∧ ((buildRecords uuid chunks dd db i vs).2.2).length = vs.length := by
  intro i vs
  induction vs generalizing i with
  | nil => simp [buildRecords]
  | cons v rest ih =>
      refine ⟨?_, ?_, ?_⟩ <;> simp [buildRecords, (ih (i + 1)).1, (ih (i + 1)).2.1, (ih (i + 1)).2.2]

theorem createMany_not_mem_runInserts (c : String) (ok : List Bool) (i : Nat)
    (bs : List (List InsertRow)) (rows : List DocRow) :
    Effect.createManyRows rows ∉ (runInserts c ok i bs).1 := by
  intro h
  rcases runInserts_events c ok i bs _ h with ⟨b, hb⟩
  simp at hb

theorem storeCache_not_mem_runInserts (c : String) (ok : List Bool) (i : Nat)
    (bs : List (List InsertRow)) (entries : List CacheEntry) (fn : String) :
    Effect.storeCache entries fn ∉ (runInserts c ok i bs).1 := by
  intro h
  rcases runInserts_events c ok i bs _ h with ⟨b, hb⟩
  simp at hb

theorem insertedRows_batchEvents (c : String) (vectors : List VectorRecord) :
    insertedRows ((toChunks vectors 500).map
        (fun ch => Effect.insertBatch c (ch.map toInsertRow)))
      = vectors.map toInsertRow := by
  have h1 : (toChunks vectors 500).map (fun ch => Effect.insertBatch c (ch.map toInsertRow))
      = ((toChunks vectors 500).map (fun ch => ch.map toInsertRow)).map (Effect.insertBatch c) := by
    rw [List.map_map]; rfl
  rw [h1, insertedRows_map_insertBatch]
  have hmf : ((toChunks vectors 500).map (fun ch => ch.map toInsertRow)).flatten
      = ((toChunks vectors 500).flatten).map toInsertRow := by
    simp [List.map_flatten]
  rw [hmf, toChunks_flatten _ _ (by norm_num)]

theorem map_id_toInsertRow (vectors : List VectorRecord) :
    (vectors.map toInsertRow).map InsertRow.id = vectors.map VectorRecord.id := by
  simp only [List.map_map]
  rfl

/-- Characterization of one `processDocument` run: either it fails before
`DocumentVectors.createMany` is ever called (and no cache write happens
either), or its trace is exactly the embed request, the connection, the
collection load, all insert batches of the synthesized vectors, then the
`createMany` call, followed by at most the cache write; and the mapping rows
reference exactly the synthesized (inserted) vector ids. -/
theorem processDocument_run (env : MilvusEnv) (coll : String)
    (dd : DocumentData) (db : DbDocument) :
    ((∀ rows, Effect.createManyRows rows ∉ (processDocument env coll dd db).2) ∧
     (∀ entries fn, Effect.storeCache entries fn ∉ (processDocument env coll dd db).2) ∧
     (processDocument env coll dd db).1.success = false) ∨
    (∃ chunks vectors dv cache tail,
       (processDocument env coll dd db).2 =
         Effect.embedRequest chunks :: Effect.connect :: Effect.loadCollection coll ::
           ((toChunks vectors 500).map
              (fun ch => Effect.insertBatch coll (ch.map toInsertRow)) ++
            Effect.createManyRows dv :: tail) ∧
       dv.map DocRow.vectorId = vectors.map VectorRecord.id ∧
       (tail = [] ∨ tail = [Effect.storeCache cache (vectorFilename db)]) ∧
       ((processDocument env coll dd db).1.success = true →
         tail = [Effect.storeCache cache (vectorFilename db)])) := by
  cases hemb : env.embed (splitText 1000 20 dd.pageContent) with
  | none => refine Or.inl ⟨?_, ?_, ?_⟩ <;> simp [processDocument, hemb]
  | some vs =>
      by_cases hvs : vs.isEmpty
      · refine Or.inl ⟨?_, ?_, ?_⟩ <;> simp [processDocument, hemb, hvs]
      · by_cases hc : env.connectOk
        · by_cases hl : env.loadOk
          · by_cases hins : (runInserts coll env.insertOk 0
                ((toChunks (buildRecords env.uuid (splitText 1000 20 dd.pageContent)
                    dd db 0 vs).1 500).map (fun ch => ch.map toInsertRow))).2
            · -- all inserts succeeded: the createMany call is reached
              have hins1 : (runInserts coll env.insertOk 0
                  ((toChunks (buildRecords env.uuid (splitText 1000 20 dd.pageContent)
                      dd db 0 vs).1 500).map (fun ch => ch.map toInsertRow))).1
                  = (toChunks (buildRecords env.uuid (splitText 1000 20 dd.pageContent)
                      dd db 0 vs).1 500).map
                      (fun ch => Effect.insertBatch coll (ch.map toInsertRow)) := by
                rw [runInserts_complete _ _ _ _ hins, List.map_map]; rfl
              by_cases hcm : env.createManyOk
              · refine Or.inr ⟨splitText 1000 20 dd.pageContent,
                  (buildRecords env.uuid (splitText 1000 20 dd.pageContent) dd db 0 vs).1,
                  (buildRecords env.uuid (splitText 1000 20 dd.pageContent) dd db 0 vs).2.1,
                  (buildRecords env.uuid (splitText 1000 20 dd.pageContent) dd db 0 vs).2.2,
                  [Effect.storeCache
                    (buildRecords env.uuid (splitText 1000 20 dd.pageContent) dd db 0 vs).2.2
                    (vectorFilename db)],
                  ?_, buildRecords_ids env.uuid _ dd db 0 vs, Or.inr rfl, fun _ => rfl⟩
                by_cases hst : env.storeOk <;>
                  simp [processDocument, hemb, hvs, hc, hl, hins, hins1, hcm, hst]
              · refine Or.inr ⟨splitText 1000 20 dd.pageContent,
                  (buildRecords env.uuid (splitText 1000 20 dd.pageContent) dd db 0 vs).1,
                  (buildRecords env.uuid (splitText 1000 20 dd.pageContent) dd db 0 vs).2.1,
                  (buildRecords env.uuid (splitText 1000 20 dd.pageContent) dd db 0 vs).2.2,
                  [], ?_, buildRecords_ids env.uuid _ dd db 0 vs, Or.inl rfl,
                  fun hs => absurd hs (by
                    simp [processDocument, hemb, hvs, hc, hl, hins, hcm])⟩
                simp [processDocument, hemb, hvs, hc, hl, hins, hins1, hcm]
            · refine Or.inl ⟨?_, ?_, ?_⟩ <;>
                simp [processDocument, hemb, hvs, hc, hl, hins,
                  createMany_not_mem_runInserts, storeCache_not_mem_runInserts]
          · refine Or.inl ⟨?_, ?_, ?_⟩ <;> simp [processDocument, hemb, hvs, hc, hl]
        · refine Or.inl ⟨?_, ?_, ?_⟩ <;> simp [processDocument, hemb, hvs, hc]

/-! ## C3: mapping rows and cache only after all inserts -/

/-- C3: in every execution of `Milvus.processDocument`, the
`DocumentVectors.createMany` call and the cache write occur only after every
backend insert batch has been issued successfully (no insert follows them in
the trace), the mapping rows reference exactly the ids of the rows actually
inserted (one row per inserted vector record, in order), and a successful run
performs the `createMany` call with exactly one row per inserted record. -/
theorem milvus_mapping_rows_only_after_inserts (env : MilvusEnv) (coll : String)
    (dd : DocumentData) (db : DbDocument) :
    (∀ rows, Effect.createManyRows rows ∈ (processDocument env coll dd db).2 →
        ∃ pre post,
          (processDocument env coll dd db).2 = pre ++ Effect.createManyRows rows :: post ∧
          (∀ c b, Effect.insertBatch c b ∉ post) ∧
          rows.map DocRow.vectorId = (insertedRows pre).map InsertRow.id) ∧
    (∀ entries fn, Effect.storeCache entries fn ∈ (processDocument env coll dd db).2 →
        ∃ pre post,
          (processDocument env coll dd db).2 = pre ++ Effect.storeCache entries fn :: post ∧
          (∀ c b, Effect.insertBatch c b ∉ post) ∧
          ∃ rows, Effect.createManyRows rows ∈ pre) ∧
    ((processDocument env coll dd db).1.success = true →
        ∃ rows, Effect.createManyRows rows ∈ (processDocument env coll dd db).2 ∧
          rows.map DocRow.vectorId
            = (insertedRows (processDocument env coll dd db).2).map InsertRow.id) := by
  rcases processDocument_run env coll dd db with
    ⟨hnc, hns, hsf⟩ | ⟨chunks, vectors, dv, cache, tail, htr, hids, htail, hsucc⟩
  · refine ⟨?_, ?_, ?_⟩
    · intro rows hr; exact absurd hr (hnc rows)
    · intro entries fn hr; exact absurd hr (hns entries fn)
    · intro hs; rw [hsf] at hs; cases hs
  · have hpre : insertedRows (Effect.embedRequest chunks :: Effect.connect ::
        Effect.loadCollection coll ::
        (toChunks vectors 500).map (fun ch => Effect.insertBatch coll (ch.map toInsertRow)))
        = vectors.map toInsertRow := by
      simp [insertedRows, insertedRows_batchEvents]
    refine ⟨?_, ?_, ?_⟩
    · intro rows hr
      rw [htr] at hr
      have hrows : rows = dv := by
        rcases htail with h | h <;> subst h <;> simp at hr <;> exact hr
      subst hrows
      refine ⟨Effect.embedRequest chunks :: Effect.connect :: Effect.loadCollection coll ::
          (toChunks vectors 500).map (fun ch => Effect.insertBatch coll (ch.map toInsertRow)),
        tail, ?_, ?_, ?_⟩
      · rw [htr]; rfl
      · rcases htail with h | h <;> subst h <;> intro c b <;> simp
      · rw [hpre, map_id_toInsertRow]; exact hids
    · intro entries fn hr
      rw [htr] at hr
      rcases htail with h | h <;> subst h
      · exfalso; simp at hr
      · have heq : entries = cache ∧ fn = vectorFilename db := by
          simp at hr; exact hr
        rcases heq with ⟨rfl, rfl⟩
        refine ⟨Effect.embedRequest chunks :: Effect.connect :: Effect.loadCollection coll ::
            ((toChunks vectors 500).map
              (fun ch => Effect.insertBatch coll (ch.map toInsertRow)) ++
              [Effect.createManyRows dv]),
          [], ?_, ?_, dv, ?_⟩
        · rw [htr]; simp
        · intro c b; simp
        · simp
    · intro hs
      have h := hsucc hs
      subst h
      refine ⟨dv, ?_, ?_⟩
      · rw [htr]; simp
      · rw [htr]
        have hall : insertedRows (Effect.embedRequest chunks :: Effect.connect ::
            Effect.loadCollection coll ::
            ((toChunks vectors 500).map
              (fun ch => Effect.insertBatch coll (ch.map toInsertRow)) ++
             Effect.createManyRows dv ::
               [Effect.storeCache cache (vectorFilename db)]))
            = vectors.map toInsertRow := by
          simp [insertedRows, insertedRows_append, insertedRows_batchEvents]
        rw [hall, map_id_toInsertRow]; exact hids

/-- Witness for `milvus_mapping_rows_only_after_inserts`: a concrete fully
successful run performs the `createMany` call with one row per inserted
record. -/
theorem milvus_mapping_rows_witness :
    ∃ rows, Effect.createManyRows rows ∈
        (processDocument ⟨fun cs => some (cs.map (fun _ => [(1 : ℚ)])),
            fun n => toString n, true, true, [], true, true⟩ "docs"
            ⟨['h', 'i'], "d1", []⟩ ⟨7, 8, 9⟩).2 ∧
      rows.map DocRow.vectorId =
        (insertedRows (processDocument ⟨fun cs => some (cs.map (fun _ => [(1 : ℚ)])),
            fun n => toString n, true, true, [], true, true⟩ "docs"
            ⟨['h', 'i'], "d1", []⟩ ⟨7, 8, 9⟩).2).map InsertRow.id :=
  (milvus_mapping_rows_only_after_inserts
      ⟨fun cs => some (cs.map (fun _ => [(1 : ℚ)])), fun n => toString n,
        true, true, [], true, true⟩ "docs" ⟨['h', 'i'], "d1", []⟩ ⟨7, 8, 9⟩).2.2
    (by rfl)

/-! ## C5: chunking of the 4000-character uniform document -/

theorem windowChunksAux_replicate_step (f n : Nat) (hf : 0 < f) (hn : 1000 < n) :
    windowChunksAux 1000 980 f (List.replicate n 'A')
      = List.replicate 1000 'A'
          :: windowChunksAux 1000 980 (f - 1) (List.replicate (n - 980) 'A') := by
  obtain ⟨g, rfl⟩ : ∃ g, f = g + 1 := ⟨f - 1, by omega⟩
  rw [windowChunksAux]
  rw [if_neg (by simp; omega)]
  rw [List.take_replicate, List.drop_replicate]
  have h1 : min 1000 n = 1000 := by omega
  have h2 : g + 1 - 1 = g := by omega
  rw [h1, h2]

theorem windowChunksAux_replicate_base (f n : Nat) (hf : 0 < f) (hn : n ≤ 1000) :
    windowChunksAux 1000 980 f (List.replicate n 'A') = [List.replicate n 'A'] := by
  obtain ⟨g, rfl⟩ : ∃ g, f = g + 1 := ⟨f - 1, by omega⟩
  rw [windowChunksAux]
  rw [if_pos (by simpa using hn)]

/-- The 4000-character uniform document splits into five sliding-window
chunks: four of 1000 characters and a trailing one of 80. -/
theorem split4000 :
    splitText 1000 20 (List.replicate 4000 'A')
      = [List.replicate 1000 'A', List.replicate 1000 'A', List.replicate 1000 'A',
         List.replicate 1000 'A', List.replicate 80 'A'] := by
  rw [splitText]
  rw [if_neg (by simp)]
  norm_num
  rw [windowChunksAux_replicate_step 4000 4000 (by norm_num) (by norm_num)]
  norm_num
  rw [windowChunksAux_replicate_step 3999 3020 (by norm_num) (by norm_num)]
  norm_num
  rw [windowChunksAux_replicate_step 3998 2040 (by norm_num) (by norm_num)]
  norm_num
  rw [windowChunksAux_replicate_step 3997 1060 (by norm_num) (by norm_num)]
  norm_num
  rw [windowChunksAux_replicate_base 3996 80 (by norm_num) (by norm_num)]

/-- C5 counterexample: the 4000-character uniform document does not produce
4 chunks (it produces 5: four full chunks of 1000 and the 80-character
remainder forced by the 20-character overlap). -/
theorem milvus_chunking_4000_not_4 :
    (splitText 1000 20 (List.replicate 4000 'A')).length ≠ 4 := by
  rw [split4000]
  simp only [List.length_cons, List.length_nil]
  omega

/-- Every run opens with the single batched embedding request carrying all
the chunks of the split page text. -/
theorem processDocument_embedRequest_mem (env : MilvusEnv) (coll : String)
    (dd : DocumentData) (db : DbDocument) :
    Effect.embedRequest (splitText 1000 20 dd.pageContent)
      ∈ (processDocument env coll dd db).2 := by
  cases hemb : env.embed (splitText 1000 20 dd.pageContent) with
  | none => simp [processDocument, hemb]
  | some vs =>
      by_cases hvs : vs.isEmpty
      · simp [processDocument, hemb, hvs]
      · by_cases hc : env.connectOk
        · by_cases hl : env.loadOk
          · by_cases hins : (runInserts coll env.insertOk 0
                ((toChunks (buildRecords env.uuid (splitText 1000 20 dd.pageContent)
                    dd db 0 vs).1 500).map (fun ch => ch.map toInsertRow))).2
            · by_cases hcm : env.createManyOk
              · by_cases hst : env.storeOk <;>
                  simp [processDocument, hemb, hvs, hc, hl, hins, hcm, hst]
              · simp [processDocument, hemb, hvs, hc, hl, hins, hcm]
            · simp [processDocument, hemb, hvs, hc, hl, hins]
          · simp [processDocument, hemb, hvs, hc, hl]
        · simp [processDocument, hemb, hvs, hc]

/-- With an empty `insertOk` override list every insert batch succeeds. -/
theorem runInserts_nil_ok (c : String) :
    ∀ i bs, (runInserts c ([] : List Bool) i bs).2 = true := by
  intro i bs
  induction bs generalizing i with
  | nil => rfl
  | cons b t ih =>
      rw [runInserts, if_pos (by simp)]
      exact ih (i + 1)

/-- If the provider answered with a nonempty vector list and every backend
call succeeds, the run reports success. -/
theorem processDocument_success_of_flags (env : MilvusEnv) (coll : String)
    (dd : DocumentData) (db : DbDocument) (vs : List (List ℚ))
    (hemb : env.embed (splitText 1000 20 dd.pageContent) = some vs)
    (hvs : vs.isEmpty = false) (hc : env.connectOk = true) (hl : env.loadOk = true)
    (hins : (runInserts coll env.insertOk 0
        ((toChunks (buildRecords env.uuid (splitText 1000 20 dd.pageContent)
            dd db 0 vs).1 500).map (fun ch => ch.map toInsertRow))).2 = true)
    (hcm : env.createManyOk = true) (hst : env.storeOk = true) :
    (processDocument env coll dd db).1.success = true := by
  simp [processDocument, hemb, hvs, hc, hl, hins, hcm, hst]

/-- In a successful run whose provider answered `vs`, the `createMany` call
carries one mapping row per embedding and the backend received one insert row
per embedding. -/
theorem processDocument_success_counts (env : MilvusEnv) (coll : String)
    (dd : DocumentData) (db : DbDocument) (vs : List (List ℚ))
    (hemb : env.embed (splitText 1000 20 dd.pageContent) = some vs)
    (hs : (processDocument env coll dd db).1.success = true) :
    ∃ rows, Effect.createManyRows rows ∈ (processDocument env coll dd db).2 ∧
      rows.length = vs.length ∧
      (insertedRows (processDocument env coll dd db).2).length = vs.length := by
  by_cases hvs : vs.isEmpty
  · exfalso; simp [processDocument, hemb, hvs] at hs
  · by_cases hc : env.connectOk
    · by_cases hl : env.loadOk
      · by_cases hins : (runInserts coll env.insertOk 0
            ((toChunks (buildRecords env.uuid (splitText 1000 20 dd.pageContent)
                dd db 0 vs).1 500).map (fun ch => ch.map toInsertRow))).2
        · by_cases hcm : env.createManyOk
          · by_cases hst : env.storeOk
            · have hins1 : (runInserts coll env.insertOk 0
                  ((toChunks (buildRecords env.uuid (splitText 1000 20 dd.pageContent)
                      dd db 0 vs).1 500).map (fun ch => ch.map toInsertRow))).1
                  = (toChunks (buildRecords env.uuid (splitText 1000 20 dd.pageContent)
                      dd db 0 vs).1 500).map
                      (fun ch => Effect.insertBatch coll (ch.map toInsertRow)) := by
                rw [runInserts_complete _ _ _ _ hins, List.map_map]; rfl
              refine ⟨(buildRecords env.uuid (splitText 1000 20 dd.pageContent)
                  dd db 0 vs).2.1, ?_, ?_, ?_⟩
              · simp [processDocument, hemb, hvs, hc, hl, hins, hcm, hst]
              · exact (buildRecords_lengths env.uuid _ dd db 0 vs).2.1
              · have htr : (processDocument env coll dd db).2 =
                    Effect.embedRequest (splitText 1000 20 dd.pageContent) ::
                      Effect.connect :: Effect.loadCollection coll ::
                      ((toChunks (buildRecords env.uuid (splitText 1000 20 dd.pageContent)
                          dd db 0 vs).1 500).map
                          (fun ch => Effect.insertBatch coll (ch.map toInsertRow)) ++
                        Effect.createManyRows (buildRecords env.uuid
                          (splitText 1000 20 dd.pageContent) dd db 0 vs).2.1 ::
                        [Effect.storeCache (buildRecords env.uuid
                          (splitText 1000 20 dd.pageContent) dd db 0 vs).2.2
                          (vectorFilename db)]) := by
                  simp [processDocument, hemb, hvs, hc, hl, hins, hins1, hcm, hst]
                rw [htr]
                simp only [insertedRows, insertedRows_append, insertedRows_batchEvents]
                simp [List.length_map, (buildRecords_lengths env.uuid _ dd db 0 vs).1]
            · exfalso; simp [processDocument, hemb, hvs, hc, hl, hins, hcm, hst] at hs
          · exfalso; simp [processDocument, hemb, hvs, hc, hl, hins, hcm] at hs
        · exfalso; simp [processDocument, hemb, hvs, hc, hl, hins] at hs
      · exfalso; simp [processDocument, hemb, hvs, hc, hl] at hs
    · exfalso; simp [processDocument, hemb, hvs, hc] at hs

/-- C5 (amended): `processDocument` splits with fixed chunk size 1000 and
overlap 20; the 4000-character uniform document yields 5 chunks (not 4),
every adjacent pair sharing a 20-character overlap; empty text yields zero
chunks without failing; every run issues one batched embedding request
carrying exactly those chunks; and a successful run with one embedding per
chunk creates one insert row and one `DocumentVectors` row per chunk (5
each). -/
theorem milvus_chunking_4000_amended :
    (splitText 1000 20 (List.replicate 4000 'A')).length = 5 ∧
    List.Chain' chunkOverlap20 (splitText 1000 20 (List.replicate 4000 'A')) ∧
    splitText 1000 20 [] = [] ∧
    (∀ env coll dd db, Effect.embedRequest (splitText 1000 20 dd.pageContent)
        ∈ (processDocument env coll dd db).2) ∧
    (∀ env coll (dd : DocumentData) db vs,
       dd.pageContent = List.replicate 4000 'A' →
       env.embed (splitText 1000 20 dd.pageContent) = some vs →
       vs.length = (splitText 1000 20 dd.pageContent).length →
       (processDocument env coll dd db).1.success = true →
       ∃ rows, Effect.createManyRows rows ∈ (processDocument env coll dd db).2 ∧
         rows.length = 5 ∧
         (insertedRows (processDocument env coll dd db).2).length = 5) := by
  have hrep : ∀ m k : Nat, 20 ≤ m → 20 ≤ k →
      chunkOverlap20 (List.replicate m 'A') (List.replicate k 'A') := by
    intro m k hm hk
    constructor
    · rw [List.length_replicate, List.drop_replicate, List.take_replicate]
      rw [show m - (m - 20) = 20 from by omega, show min 20 k = 20 from by omega]
    · rw [List.take_replicate, List.length_replicate]
      omega
  refine ⟨by rw [split4000]; rfl, ?_, rfl, processDocument_embedRequest_mem, ?_⟩
  · rw [split4000]
    exact List.chain'_cons.mpr ⟨hrep 1000 1000 (by norm_num) (by norm_num),
      List.chain'_cons.mpr ⟨hrep 1000 1000 (by norm_num) (by norm_num),
        List.chain'_cons.mpr ⟨hrep 1000 1000 (by norm_num) (by norm_num),
          List.chain'_cons.mpr ⟨hrep 1000 80 (by norm_num) (by norm_num),
            List.chain'_singleton _⟩⟩⟩⟩
  · intro env coll dd db vs hpc hemb hlen hs
    obtain ⟨rows, hmem, hr1, hr2⟩ := processDocument_success_counts env coll dd db vs hemb hs
    have h5 : vs.length = 5 := by
      rw [hlen, hpc, split4000]; rfl
    exact ⟨rows, hmem, by rw [hr1, h5], by rw [hr2, h5]⟩

/-- Witness for `milvus_chunking_4000_amended`: a concrete fully successful
run on the 4000-character document, with one embedding per chunk, creates
5 mapping rows and 5 insert rows. -/
theorem milvus_chunking_4000_amended_witness :
    ∃ rows, Effect.createManyRows rows ∈
        (processDocument ⟨fun cs => some (cs.map (fun _ => ([1] : List ℚ))),
            fun n => toString n, true, true, [], true, true⟩ "docs"
            ⟨List.replicate 4000 'A', "d1", []⟩ ⟨7, 8, 9⟩).2 ∧
      rows.length = 5 ∧
      (insertedRows (processDocument ⟨fun cs => some (cs.map (fun _ => ([1] : List ℚ))),
            fun n => toString n, true, true, [], true, true⟩ "docs"
            ⟨List.replicate 4000 'A', "d1", []⟩ ⟨7, 8, 9⟩).2).length = 5 :=
  milvus_chunking_4000_amended.2.2.2.2
    ⟨fun cs => some (cs.map (fun _ => ([1] : List ℚ))),
      fun n => toString n, true, true, [], true, true⟩ "docs"
    ⟨List.replicate 4000 'A', "d1", []⟩ ⟨7, 8, 9⟩
    ((splitText 1000 20 (List.replicate 4000 'A')).map (fun _ => ([1] : List ℚ)))
    rfl rfl (by rw [List.length_map])
    (processDocument_success_of_flags
      ⟨fun cs => some (cs.map (fun _ => ([1] : List ℚ))),
        fun n => toString n, true, true, [], true, true⟩ "docs"
      ⟨List.replicate 4000 'A', "d1", []⟩ ⟨7, 8, 9⟩
      ((splitText 1000 20 (List.replicate 4000 'A')).map (fun _ => ([1] : List ℚ)))
      rfl (by rw [split4000]; rfl) rfl rfl (runInserts_nil_ok "docs" 0 _) rfl rfl)

/-! ## C2: embedding failure aborts before any backend mutation -/

/-- C2: if the embedding provider returns `null` or an empty vector list,
`Milvus.processDocument` returns `{success:false}` and performs no backend
mutation: the run's whole effect trace is the single embedding request — no
connection is opened, no insert is issued, no `DocumentVectors` rows are
created, and no cache artifact is written. -/
theorem processDocument_embed_failure (env : MilvusEnv) (coll : String)
    (dd : DocumentData) (db : DbDocument)
    (h : env.embed (splitText 1000 20 dd.pageContent) = none ∨
         env.embed (splitText 1000 20 dd.pageContent) = some []) :
    processDocument env coll dd db =
      (⟨false, some "Failed to generate embeddings"⟩,
        [Effect.embedRequest (splitText 1000 20 dd.pageContent)]) ∧
    ∀ e ∈ (processDocument env coll dd db).2,
      e ≠ Effect.connect ∧ (∀ c b, e ≠ Effect.insertBatch c b) ∧
      (∀ rows, e ≠ Effect.createManyRows rows) ∧
      (∀ entries fn, e ≠ Effect.storeCache entries fn) := by
  have hmain : processDocument env coll dd db =
      (⟨false, some "Failed to generate embeddings"⟩,
        [Effect.embedRequest (splitText 1000 20 dd.pageContent)]) := by
    rcases h with h | h <;> simp [processDocument, h]
  refine ⟨hmain, ?_⟩
  rw [hmain]
  intro e he
  have : e = Effect.embedRequest (splitText 1000 20 dd.pageContent) :=
    List.mem_singleton.mp he
  subst this
  exact ⟨by simp, fun c b => by simp, fun rows => by simp, fun entries fn => by simp⟩

/-- Witness for `processDocument_embed_failure` at a concrete environment
whose provider returns `null`. -/
theorem processDocument_embed_failure_witness :
    processDocument
        ⟨fun _ => none, fun _ => "v", true, true, [], true, true⟩ "docs"
        ⟨[], "doc-1", []⟩ ⟨1, 2, 3⟩ =
      (⟨false, some "Failed to generate embeddings"⟩, [Effect.embedRequest []]) :=
  (processDocument_embed_failure
      ⟨fun _ => none, fun _ => "v", true, true, [], true, true⟩ "docs"
      ⟨[], "doc-1", []⟩ ⟨1, 2, 3⟩ (Or.inl rfl)).1

/-! ## C4: similarity responses are parallel, bounded, and fail empty -/

/-- C4: `similarityResponse` returns four parallel arrays of equal length,
that length never exceeds `topK`, any internal failure yields the all-empty
structure instead of an exception, and `ClickHouse.similarityResponse` is
always the all-empty structure (trivially parallel and bounded). -/
theorem similarityResponse_parallel_and_bounded (env : SimEnv) (ns : String)
    (qv : List ℚ) (topK : Nat) :
    ((similarityResponse env ns qv topK).contextTexts.length
        = (similarityResponse env ns qv topK).vectorIds.length ∧
     (similarityResponse env ns qv topK).sourceDocuments.length
        = (similarityResponse env ns qv topK).vectorIds.length ∧
     (similarityResponse env ns qv topK).scores.length
        = (similarityResponse env ns qv topK).vectorIds.length) ∧
    (similarityResponse env ns qv topK).vectorIds.length ≤ topK ∧
    ((env.connectOk && env.loadOk && env.searchOk) = false →
      similarityResponse env ns qv topK = ⟨[], [], [], []⟩) ∧
    clickhouseSimilarityResponse ns qv topK = ⟨[], [], [], []⟩ ∧
    (clickhouseSimilarityResponse ns qv topK).vectorIds.length ≤ topK := by
  by_cases h : (env.connectOk && env.loadOk && env.searchOk) = true
  · refine ⟨⟨by simp [similarityResponse, h], by simp [similarityResponse, h],
      by simp [similarityResponse, h]⟩, ?_, ?_, rfl,
      by simp [clickhouseSimilarityResponse]⟩
    · simp only [similarityResponse, h, if_true]
      simp [List.length_take]
    · intro hfail
      rw [h] at hfail
      cases hfail
  · have h' : (env.connectOk && env.loadOk && env.searchOk) = false := by
      simpa using h
    refine ⟨⟨by simp [similarityResponse, h'], by simp [similarityResponse, h'],
      by simp [similarityResponse, h']⟩, by simp [similarityResponse, h'],
      fun _ => by simp [similarityResponse, h'], rfl,
      by simp [clickhouseSimilarityResponse]⟩

/-- Witness for `similarityResponse_parallel_and_bounded`: a failing search
yields the all-empty structure. -/
theorem similarityResponse_parallel_and_bounded_witness :
    similarityResponse ⟨true, true, false, [], fun _ => true⟩ "ns" [] 4
      = ⟨[], [], [], []⟩ :=
  (similarityResponse_parallel_and_bounded
    ⟨true, true, false, [], fun _ => true⟩ "ns" [] 4).2.2.1 rfl

/-! ## C6: the factory dispatches exactly on the supported set -/

/-- C6: for each of the six supported type tags `selectConnector` returns the
matching connector class applied to the record; every type outside the
supported set yields the unsupported-connector error; and every supported
type yields some connector (the embedding is a pure function, so the dispatch
has no side effects by construction). -/
theorem selectConnector_dispatch (oc : OrgConnector) :
    (oc.type = "chroma" → selectConnector oc = Except.ok (Connector.chroma oc)) ∧
    (oc.type = "pinecone" → selectConnector oc = Except.ok (Connector.pinecone oc)) ∧
    (oc.type = "qdrant" → selectConnector oc = Except.ok (Connector.qdrant oc)) ∧
    (oc.type = "weaviate" → selectConnector oc = Except.ok (Connector.weaviate oc)) ∧
    (oc.type = "milvus" → selectConnector oc = Except.ok (Connector.milvus oc)) ∧
    (oc.type = "clickhouse" → selectConnector oc = Except.ok (Connector.clickhouse oc)) ∧
    (oc.type ∉ supportedConnectors →
      selectConnector oc = Except.error "Unsupported connector for vector database.") ∧
    (oc.type ∈ supportedConnectors → ∃ c, selectConnector oc = Except.ok c) := by
  refine ⟨fun h => by simp [selectConnector, supportedConnectors, h],
    fun h => by simp [selectConnector, supportedConnectors, h],
    fun h => by simp [selectConnector, supportedConnectors, h],
    fun h => by simp [selectConnector, supportedConnectors, h],
    fun h => by simp [selectConnector, supportedConnectors, h],
    fun h => by simp [selectConnector, supportedConnectors, h],
    fun h => by simp [selectConnector, h],
    fun h => ?_⟩
  simp [supportedConnectors] at h
  rcases h with h | h | h | h | h | h
  · exact ⟨Connector.chroma oc, by simp [selectConnector, supportedConnectors, h]⟩
  · exact ⟨Connector.pinecone oc, by simp [selectConnector, supportedConnectors, h]⟩
  · exact ⟨Connector.qdrant oc, by simp [selectConnector, supportedConnectors, h]⟩
  · exact ⟨Connector.weaviate oc, by simp [selectConnector, supportedConnectors, h]⟩
  · exact ⟨Connector.milvus oc, by simp [selectConnector, supportedConnectors, h]⟩
  · exact ⟨Connector.clickhouse oc, by simp [selectConnector, supportedConnectors, h]⟩

/-- Witness for `selectConnector_dispatch`: the milvus tag dispatches to the
Milvus connector and an unknown tag is rejected. -/
theorem selectConnector_dispatch_witness :
    selectConnector ⟨"milvus", "s"⟩ = Except.ok (Connector.milvus ⟨"milvus", "s"⟩) ∧
    selectConnector ⟨"redis", "s"⟩
      = Except.error "Unsupported connector for vector database." :=
  ⟨(selectConnector_dispatch ⟨"milvus", "s"⟩).2.2.2.2.1 rfl,
   (selectConnector_dispatch ⟨"redis", "s"⟩).2.2.2.2.2.2.1 (by decide)⟩

/-! ## C7: an OrganizationConnection is persisted only after validation -/

/-- C7: validation itself persists nothing (in the embedding the probes are
pure environment lookups); whenever the result carries no connector — the
type is unsupported or the probe reported invalid — no
`OrganizationConnection.create` call happens, and the create call happens
exactly when a supported type's probe reports valid. -/
theorem validateNewDatabaseConnector_persists_only_after_valid
    (env : ValidatorEnv) (organizationId : Nat) (ctype settings : String) :
    ((validateNewDatabaseConnector env organizationId ctype settings).1.connector = none →
      (validateNewDatabaseConnector env organizationId ctype settings).2 = []) ∧
    (ctype ∉ supportedConnectors →
      validateNewDatabaseConnector env organizationId ctype settings
        = (⟨none, some "Unsupported vector database type."⟩, [])) ∧
    (ctype ∈ supportedConnectors → (env.outcome ctype).1 = false →
      validateNewDatabaseConnector env organizationId ctype settings
        = (⟨none, (env.outcome ctype).2⟩, [])) ∧
    (ctype ∈ supportedConnectors → (env.outcome ctype).1 = true →
      validateNewDatabaseConnector env organizationId ctype settings
        = (⟨some ⟨ctype, settings⟩, none⟩,
           [OrgEffect.createConnection organizationId ctype settings])) := by
  refine ⟨?_, fun hsup => by simp [validateNewDatabaseConnector, hsup],
    fun hsup hval => by simp [validateNewDatabaseConnector, hsup, hval],
    fun hsup hval => by simp [validateNewDatabaseConnector, hsup, hval]⟩
  by_cases hsup : ctype ∈ supportedConnectors
  · by_cases hval : (env.outcome ctype).1 = false
    · intro _; simp [validateNewDatabaseConnector, hsup, hval]
    · intro hnone
      exfalso
      simp [validateNewDatabaseConnector, hsup, hval] at hnone
  · intro _; simp [validateNewDatabaseConnector, hsup]

/-- Witness for `validateNewDatabaseConnector_persists_only_after_valid`: a
failed probe and an unsupported type both yield no connector and no create
call. -/
theorem validateNewDatabaseConnector_persists_witness :
    validateNewDatabaseConnector ⟨fun _ => (false, some "no connection")⟩ 1 "milvus" "s"
      = (⟨none, some "no connection"⟩, []) ∧
    validateNewDatabaseConnector ⟨fun _ => (false, some "no connection")⟩ 1 "redis" "s"
      = (⟨none, some "Unsupported vector database type."⟩, []) :=
  ⟨(validateNewDatabaseConnector_persists_only_after_valid
      ⟨fun _ => (false, some "no connection")⟩ 1 "milvus" "s").2.2.1 (by decide) rfl,
   (validateNewDatabaseConnector_persists_only_after_valid
      ⟨fun _ => (false, some "no connection")⟩ 1 "redis" "s").2.1 (by decide)⟩

/-! ## C8: `namespaceExists` fails closed — except for the missing-name guard -/

/-- C8 counterexample: with the name omitted both `namespaceExists`
implementations throw their missing-argument error (the guard sits outside
the `try`), even with a healthy backend — so the claim's "never throws for
every name argument including omitted/null" is false. -/
theorem namespaceExists_missing_name_throws :
    milvusNamespaceExists ⟨true, true, true⟩ none
      = Except.error "No namespace value provided." ∧
    clickhouseNamespaceExists ⟨true, true, true⟩ none
      = Except.error "No namespace (table) value provided." :=
  ⟨rfl, rfl⟩

/-- C8 (amended): for every non-empty name both `namespaceExists`
implementations never throw — they return a boolean — and they return
`false` whenever the backend is unreachable or the lookup fails
(fail-closed). -/
theorem namespaceExists_fail_closed (env : NsEnv) (name : String) (h : name ≠ "") :
    (∃ b, milvusNamespaceExists env (some name) = Except.ok b) ∧
    ((env.connectOk = false ∨ env.queryOk = false) →
      milvusNamespaceExists env (some name) = Except.ok false) ∧
    (∃ b, clickhouseNamespaceExists env (some name) = Except.ok b) ∧
    ((env.connectOk = false ∨ env.queryOk = false) →
      clickhouseNamespaceExists env (some name) = Except.ok false) := by
  by_cases hc : env.connectOk = false
  · exact ⟨⟨false, by simp [milvusNamespaceExists, h, hc]⟩,
      fun _ => by simp [milvusNamespaceExists, h, hc],
      ⟨false, by simp [clickhouseNamespaceExists, h, hc]⟩,
      fun _ => by simp [clickhouseNamespaceExists, h, hc]⟩
  · by_cases hq : env.queryOk = false
    · exact ⟨⟨false, by simp [milvusNamespaceExists, h, hc, hq]⟩,
        fun _ => by simp [milvusNamespaceExists, h, hc, hq],
        ⟨false, by simp [clickhouseNamespaceExists, h, hc, hq]⟩,
        fun _ => by simp [clickhouseNamespaceExists, h, hc, hq]⟩
    · refine ⟨⟨env.backendHas, by simp [milvusNamespaceExists, h, hc, hq]⟩,
        fun hor => ?_,
        ⟨env.backendHas, by simp [clickhouseNamespaceExists, h, hc, hq]⟩,
        fun hor => ?_⟩ <;>
        rcases hor with h1 | h1 <;> exact absurd h1 (by simp [hc, hq, h1])

/-- Witness for `namespaceExists_fail_closed`: an unreachable backend yields
`Except.ok false`, not an error, for a concrete non-empty name. -/
theorem namespaceExists_fail_closed_witness :
    milvusNamespaceExists ⟨false, true, true⟩ (some "docs") = Except.ok false ∧
    clickhouseNamespaceExists ⟨false, true, true⟩ (some "docs") = Except.ok false :=
  ⟨(namespaceExists_fail_closed ⟨false, true, true⟩ "docs" (by decide)).2.1 (Or.inl rfl),
   (namespaceExists_fail_closed ⟨false, true, true⟩ "docs" (by decide)).2.2.2 (Or.inl rfl)⟩

/-! ## C9: clients are not released on error paths (code bug) -/

/-- C9: the code leaks clients on its error paths, contradicting the
guaranteed-release contract.  When `ClickHouse.namespaces` opens a client
(ping succeeds) and the `system.tables` query then throws, the `catch`
returns `[]` without ever reaching `client.close()`; and `Milvus` operations
(here `heartbeat`) never close the client on any path, success included.
Only the fully successful ClickHouse path closes the client. -/
theorem connection_leak_on_error_paths :
    (clickhouseNamespaces true false []).1 = [] ∧
    (clickhouseNamespaces true false []).2 = [ConnEvent.openClient] ∧
    (clickhouseNamespaces true false []).2.contains ConnEvent.closeClient = false ∧
    (clickhouseNamespaces false true []).2.contains ConnEvent.closeClient = false ∧
    (milvusHeartbeat true).2.contains ConnEvent.closeClient = false ∧
    (milvusHeartbeat false).2.contains ConnEvent.closeClient = false ∧
    (clickhouseNamespaces true true []).2
      = [ConnEvent.openClient, ConnEvent.closeClient] := by
  decide

/-! ## C10: the ClickHouse `processDocument` stub -/

/-- C10: for every input, `ClickHouse.processDocument` returns
`{success:false}` with the fixed not-supported message and an empty effect
trace — no connection, mutation, embedding call, or persistence. -/
theorem clickhouse_processDocument_stub (tableName : String)
    (documentData : DocumentData) (embedderApiKey : String)
    (dbDocument : DbDocument) :
    clickhouseProcessDocument tableName documentData embedderApiKey dbDocument
      = (⟨false,
          some "ClickHouse is not a vector database - document processing not supported"⟩,
         []) :=
  rfl
